import Mathlib

/-!
Verification of the SilicaEngine developer-tooling scripts
(`scripts/common/format.py` and `scripts/common/analyze.py`) against their
natural-language specification.

The two Python scripts are process-orchestration glue: they probe for
external executables, enumerate C++ source files by walking a directory
tree, dispatch subprocesses and aggregate exit codes.  We embed them
shallowly: the filesystem is a finite rose tree, a subprocess invocation is
recorded as a trace event, and the outcome of each external process
(return code / stdout / stderr, or a spawn failure) is a parameter of the
embedding.  Paths are modelled as lists of components relative to the
walked root.
-/

namespace Silica

/-- Python's `s.endswith(suffix)` on our string model: suffix test on the
character list.  (Stated over `String.data` so that it evaluates inside the
kernel.) -/
def strEndsWith (s suffix : String) : Bool :=
  suffix.data.isSuffixOf s.data

/-- One step of Python's `pat in s` substring test over character lists. -/
def charsContain (pat : List Char) : List Char → Bool
  | [] => pat.isEmpty
  | c :: t => pat.isPrefixOf (c :: t) || charsContain pat t

/-- Python's `pat in s` substring test. -/
def strContains (s pat : String) : Bool :=
  charsContain pat.data s.data

mutual

/-- A directory tree: a directory has a name, a list of plain file names
directly inside it, and a forest of subdirectories.  (Mirrors what
`os.walk` observes: at each directory it sees `dirs` and `files`.) -/
inductive FsTree where
  | mk (dname : String) (files : List String) (subdirs : FsForest)

/-- A list of subdirectories (a mutual inductive so that the walkers below
are structurally recursive). -/
inductive FsForest where
  | nil
  | cons (head : FsTree) (tail : FsForest)

end

def FsTree.dname : FsTree → String
  | .mk n _ _ => n

def FsTree.files : FsTree → List String
  | .mk _ fs _ => fs

def FsTree.subdirs : FsTree → FsForest
  | .mk _ _ ds => ds

/-- The subdirectory forest as a plain list (used to state lemmas). -/
def FsForest.trees : FsForest → List FsTree
  | .nil => []
  | .cons t ts => t :: ts.trees

mutual

/-- `os.walk` with in-place pruning of excluded directory names, combined
with the extension filter both scripts apply to the `files` of each visited
directory.  Mirrors
`dirs[:] = [d for d in dirs if d not in exclude]` followed by
`if any(file.endswith(ext) for ext in extensions)`.
A result `(ds, f)` is the file named `f` inside the subdirectory chain `ds`
(relative to the walked root; `os.path.join(root, file)`). -/
def walkTree (exclude exts : List String) : FsTree → List (List String × String)
  | .mk _ fls sub =>
    (fls.filter (fun f => exts.any (fun e => strEndsWith f e))).map (fun f => ([], f))
      ++ walkSubdirs exclude exts sub

/-- The recursive descent of `os.walk` into the subdirectory forest: a
subdirectory whose name is excluded is pruned (not entered); results from a
subdirectory `d` are prefixed with `d`'s name (`os.path.join`). -/
def walkSubdirs (exclude exts : List String) : FsForest → List (List String × String)
  | .nil => []
  | .cons d ds =>
      (if d.dname ∈ exclude then []
       else (walkTree exclude exts d).map (fun q => (d.dname :: q.1, q.2)))
        ++ walkSubdirs exclude exts ds

end

mutual

/-- Does the path `ds ++ [f]` name a file that exists in the tree? -/
def FsTree.hasFile : FsTree → List String → String → Bool
  | .mk _ fls _, [], f => fls.contains f
  | .mk _ _ sub, d :: ds, f => hasFileIn sub d ds f

/-- Does some subdirectory named `d` in the forest contain the file
`ds ++ [f]`? -/
def hasFileIn : FsForest → String → List String → String → Bool
  | .nil, _, _, _ => false
  | .cons s ss, d, ds, f => (s.dname == d && FsTree.hasFile s ds f) || hasFileIn ss d ds f

end

/-- The directory names both scripts prune during traversal
(`['build', 'external', '.git']`). -/
def excludedDirNames : List String := ["build", "external", ".git"]

/-- The extension list of `format.py`'s `find_source_files`. -/
def formatExtensions : List String := [".cpp", ".c", ".h", ".hpp", ".cc", ".cxx"]

/-- `find_source_files(directory)` from `format.py`. -/
def find_source_files (directory : FsTree) : List (List String × String) :=
  walkTree excludedDirNames formatExtensions directory

/-- The extension tuple of the walk inside `run_clang_tidy`
(`file.endswith(('.cpp', '.cc', '.cxx'))`). -/
def tidyExtensions : List String := [".cpp", ".cc", ".cxx"]

/-- The source-file walk inside `analyze.py`'s `run_clang_tidy`
(over the current directory). -/
def tidySourceFiles (cwd : FsTree) : List (List String × String) :=
  walkTree excludedDirNames tidyExtensions cwd

/-! ### Subprocess outcomes and probes -/

/-- Outcome of `subprocess.run([tool, '--version'], ...)`: either the OS
could not locate the executable (`FileNotFoundError`), or the process ran
and produced a return code. -/
inductive ProbeOutcome where
  | notFound
  | ran (rc : Nat)

/-- The install-hint block `check_clang_format` prints when clang-format is
missing or its version query fails. -/
def clangFormatInstallLines : List String :=
  ["ERROR: clang-format not found!",
   "Please install clang-format:",
   "  Windows: Install LLVM from https://llvm.org/builds/",
   "  Linux: sudo apt install clang-format (or equivalent)",
   "  macOS: brew install clang-format"]

/-- `check_clang_format()` from `format.py`: returns `true` iff the version
probe ran with return code 0; a `FileNotFoundError` is caught (the `except`
branch falls through to the install hint) and yields `false`.  The second
component is the console output. -/
def check_clang_format (outcome : ProbeOutcome) : Bool × List String :=
  match outcome with
  | .ran rc =>
      if rc == 0 then (true, ["Found clang-format"])
      else (false, clangFormatInstallLines)
  | .notFound => (false, clangFormatInstallLines)

/-- `check_tool(tool_name, install_instructions)` from `analyze.py`; same
shape as `check_clang_format`, with the tool's own hint lines. -/
def check_tool (outcome : ProbeOutcome) (toolName installInstructions : String) :
    Bool × List String :=
  match outcome with
  | .ran rc =>
      if rc == 0 then (true, ["✓ Found " ++ toolName])
      else (false, ["✗ " ++ toolName ++ " not found", "  Install: " ++ installInstructions])
  | .notFound =>
      (false, ["✗ " ++ toolName ++ " not found", "  Install: " ++ installInstructions])

/-! ### format.py -/

/-- One clang-format subprocess invocation issued by `format.py`:
the version probe, a dry-run check (`--dry-run --Werror file`), or an
in-place rewrite (`-i file`). -/
inductive FmtCmd where
  | version
  | dry (file : List String × String)
  | inPlace (file : List String × String)
deriving DecidableEq

/-- Only the in-place invocation rewrites a file. -/
def FmtCmd.mutates : FmtCmd → Bool
  | .inPlace _ => true
  | _ => false

/-- `format_file(file_path, dry_run)` from `format.py`.  The per-file
subprocess outcome is `some rc` (ran, return code `rc`) or `none` (an
exception, caught by the function's `except` clause which returns `False`).
Dry run: `True` iff the return code is non-zero (formatting needed);
in-place: `True` iff the return code is zero (success). -/
def format_file (dryRun : Bool) (outcome : Option Nat) : Bool :=
  if dryRun then
    match outcome with
    | some rc => rc != 0
    | none => false
  else
    match outcome with
    | some rc => rc == 0
    | none => false

/-- The external world as `format.py` sees it: the clang-format probe
outcome, and per file the outcome of the dry-run and in-place
invocations. -/
structure FormatEnv where
  clangFormatProbe : ProbeOutcome
  dryRc : List String × String → Option Nat
  inplaceRc : List String × String → Option Nat

/-- `main()` of `format.py`: returns the process exit code, the trace of
clang-format invocations issued, and the console report lines. -/
def format_main (check : Bool) (directory : FsTree) (env : FormatEnv) :
    Nat × List FmtCmd × List String :=
  let probe := check_clang_format env.clangFormatProbe
  if ¬ probe.1 then (1, [FmtCmd.version], probe.2)
  else
    let sourceFiles := find_source_files directory
    if sourceFiles.isEmpty then
      (0, [FmtCmd.version], probe.2 ++ ["No source files found."])
    else if check then
      let needing := sourceFiles.filter (fun p => format_file true (env.dryRc p))
      let trace := FmtCmd.version :: sourceFiles.map FmtCmd.dry
      if needing.isEmpty then
        (0, trace, probe.2 ++ ["All files are properly formatted!"])
      else
        let n := needing.length
        (1, trace, probe.2 ++ [s!"{n} files need formatting.", "Run without --check to format them."])
    else
      let formattedCount := (sourceFiles.filter (fun p => format_file false (env.inplaceRc p))).length
      let total := sourceFiles.length
      (0, FmtCmd.version :: sourceFiles.map FmtCmd.inPlace,
        probe.2 ++ [s!"Formatted {formattedCount}/{total} files."])

/-- Abstract file contents indexed by path: the part of the filesystem the
formatter may rewrite. -/
abbrev FileState := List ((List String × String) × String)

/-- Effect of one clang-format invocation on file contents: the version
probe and a dry run (`--dry-run`) change nothing; `-i` rewrites the file in
place with its formatted contents (`fmt`). -/
def applyFmtCmd (fmt : (List String × String) → String → String) (fs : FileState) :
    FmtCmd → FileState
  | .inPlace p => fs.map (fun e => if e.1 = p then (e.1, fmt p e.2) else e)
  | _ => fs

/-- Effect of a trace of clang-format invocations on file contents. -/
def runFmtCmds (fmt : (List String × String) → String → String)
    (fs : FileState) : List FmtCmd → FileState
  | [] => fs
  | c :: cs => runFmtCmds fmt (applyFmtCmd fmt fs c) cs

/-! ### analyze.py -/

/-- A subprocess invocation dispatched by `analyze.py`, recorded as its
full argument vector. -/
inductive AnaCmd where
  | invoke (cmd : List String)
deriving DecidableEq

/-- Result of a subprocess that ran to completion. -/
structure SubprocessResult where
  returncode : Nat
  stdout : String
  stderr : String

/-- The fixed source-directory list of `analyze.py`'s `main`. -/
def source_dirs : List String := ["SilicaEngine/src", "SilicaEngine/include", "Fractura/src"]

/-- The constant part of the cppcheck command line built by
`run_cppcheck`, before source directories are appended. -/
def cppcheckBaseCmd : List String :=
  ["cppcheck", "--enable=all", "--inconclusive", "--std=c++17",
   "--suppress=missingIncludeSystem", "--suppress=unusedFunction", "--quiet",
   "--template=\x7bfile\x7d:\x7bline\x7d: \x7bseverity\x7d: \x7bmessage\x7d [\x7bid\x7d]"]

/-- `run_cppcheck(source_dirs)` from `analyze.py`: appends each *existing*
source directory to one command line, dispatches a single subprocess, and
relays its stdout/stderr verbatim.  `result = none` models an exception
from `subprocess.run` (caught; return code 1). -/
def run_cppcheck (dirExists : String → Bool) (result : Option SubprocessResult)
    (sourceDirs : List String) : Nat × List AnaCmd × List String :=
  let cmd := cppcheckBaseCmd ++ sourceDirs.filter dirExists
  match result with
  | some r =>
      (r.returncode, [AnaCmd.invoke cmd],
        (if r.stdout != "" then ["Issues found:", r.stdout]
         else ["No issues found by cppcheck!"])
          ++ (if r.stderr != "" then ["Warnings/Info:", r.stderr] else []))
  | none => (1, [AnaCmd.invoke cmd], ["Error running cppcheck"])

/-- `os.path.join('.', *components)` for a walked file path. -/
def pathJoin (p : List String × String) : String :=
  String.intercalate "/" ("." :: (p.1 ++ [p.2]))

/-- The clang-tidy command line built per source file. -/
def tidyCmd (buildDir : String) (p : List String × String) : List String :=
  ["clang-tidy", pathJoin p, "-p=" ++ buildDir, "--quiet"]

/-- `run_clang_tidy(build_dir)` from `analyze.py`.  If
`build_dir/compile_commands.json` does not exist: report and return 1
without dispatching anything.  Otherwise walk the current directory for
source files; with no files return 0; else dispatch clang-tidy once per
file, count files whose stdout contains `warning:`, report the count, and
return 0 unconditionally. -/
def run_clang_tidy (buildDir : String) (dbExists : Bool) (cwd : FsTree)
    (tidyResult : List String × String → Option SubprocessResult) :
    Nat × List AnaCmd × List String :=
  if ¬ dbExists then
    (1, [], [s!"ERROR: {buildDir}/compile_commands.json not found!",
             "Please build the project with CMAKE_EXPORT_COMPILE_COMMANDS=ON"])
  else
    let sourceFiles := tidySourceFiles cwd
    if sourceFiles.isEmpty then
      (0, [], ["No source files found!"])
    else
      let issuesFound := (sourceFiles.filter (fun p =>
          match tidyResult p with
          | some r => r.stdout != "" && strContains r.stdout "warning:"
          | none => false)).length
      let trace := sourceFiles.map (fun p => AnaCmd.invoke (tidyCmd buildDir p))
      let report :=
        if issuesFound == 0 then ["No issues found by clang-tidy!"]
        else [s!"clang-tidy found issues in {issuesFound} files."]
      (0, trace, report)

/-- `run_include_what_you_use()` from `analyze.py`: prints guidance,
dispatches nothing, returns 0. -/
def run_include_what_you_use : Nat × List AnaCmd × List String :=
  (0, [], ["include-what-you-use requires compilation with special flags.",
           "This is complex to set up automatically. Please refer to:",
           "https://include-what-you-use.org/"])

/-- The `--tool` choice of `analyze.py`. -/
inductive ToolChoice where
  | cppcheck
  | clangTidy
  | iwyu
  | all
deriving DecidableEq

def selCppcheck (t : ToolChoice) : Bool := t == .cppcheck || t == .all

def selClangTidy (t : ToolChoice) : Bool := t == .clangTidy || t == .all

def selIwyu (t : ToolChoice) : Bool := t == .iwyu || t == .all

def cppcheckHint : String :=
  "apt install cppcheck / brew install cppcheck / choco install cppcheck"

def clangTidyHint : String :=
  "apt install clang-tidy / brew install llvm / install LLVM"

def iwyuHint : String :=
  "Complex setup - see https://include-what-you-use.org/"

/-- The external world as `analyze.py` sees it: the three tool probes, which
source directories exist, the single cppcheck subprocess outcome, whether
`compile_commands.json` exists under the build dir, the current directory
tree, and the per-file clang-tidy outcomes. -/
structure AnalyzeEnv where
  cppcheckProbe : ProbeOutcome
  clangTidyProbe : ProbeOutcome
  iwyuProbe : ProbeOutcome
  dirExists : String → Bool
  cppcheckResult : Option SubprocessResult
  compileCommandsExists : Bool
  cwd : FsTree
  tidyResult : List String × String → Option SubprocessResult

/-- `main()` of `analyze.py`: probes the selected tools, runs cppcheck and
clang-tidy only when selected *and* probed available, runs the iwyu step
whenever selected (the source has no availability gate on that branch), and
ORs the runner return codes into the exit code.  Returns the exit code, the
list of executed runners with their return codes (in execution order), and
the concatenated subprocess trace. -/
def analyze_main (tool : ToolChoice) (buildDir : String) (env : AnalyzeEnv) :
    Nat × List (String × Nat) × List AnaCmd :=
  let availCppcheck := selCppcheck tool && (check_tool env.cppcheckProbe "cppcheck" cppcheckHint).1
  let availClangTidy := selClangTidy tool && (check_tool env.clangTidyProbe "clang-tidy" clangTidyHint).1
  let r1 :=
    if availCppcheck then
      let r := run_cppcheck env.dirExists env.cppcheckResult source_dirs
      (r.1, [("cppcheck", r.1)], r.2.1)
    else (0, [], [])
  let r2 :=
    if availClangTidy then
      let r := run_clang_tidy buildDir env.compileCommandsExists env.cwd env.tidyResult
      (r.1, [("clang-tidy", r.1)], r.2.1)
    else (0, [], [])
  let r3 :=
    if selIwyu tool then
      (run_include_what_you_use.1, [("iwyu", run_include_what_you_use.1)],
       run_include_what_you_use.2.1)
    else (0, [], [])
  (((0 ||| r1.1) ||| r2.1) ||| r3.1,
   r1.2.1 ++ r2.2.1 ++ r3.2.1,
   r1.2.2 ++ r2.2.2 ++ r3.2.2)

/-! ### Concrete inputs used by scenario conjuncts, counterexamples and
witnesses -/

/-- The tree of the enumerator scenario: root contains `a.cpp`,
`build/b.cpp`, `sub/c.hpp`, `sub/d.txt`. -/
def scenarioTree : FsTree :=
  .mk "root" ["a.cpp"]
    (.cons (.mk "build" ["b.cpp"] .nil)
      (.cons (.mk "sub" ["c.hpp", "d.txt"] .nil) .nil))

/-- A tree distinguishing exact-name exclusion from path-prefix exclusion:
a directory named `build` nested at depth two, and a sibling named
`buildings` (of which `build` is a string prefix). -/
def exactMatchTree : FsTree :=
  .mk "r" []
    (.cons (.mk "sub" [] (.cons (.mk "build" ["x.cpp"] .nil) .nil))
      (.cons (.mk "buildings" ["y.cpp"] .nil) .nil))

/-- A root directory containing a single source file `a.cpp`. -/
def oneFileTree : FsTree := .mk "root" ["a.cpp"] .nil

/-- clang-format available; the in-place invocation on every file fails
(return code 1) while dry runs report nothing to change. -/
def applyFailEnv : FormatEnv :=
  { clangFormatProbe := .ran 0, dryRc := fun _ => some 0, inplaceRc := fun _ => some 1 }

/-- clang-format available; every file already well-formatted. -/
def allFormattedEnv : FormatEnv :=
  { clangFormatProbe := .ran 0, dryRc := fun _ => some 0, inplaceRc := fun _ => some 0 }

/-- Analyzer environment in which no probed executable is present. -/
def probeAbsentEnv : AnalyzeEnv :=
  { cppcheckProbe := .notFound, clangTidyProbe := .notFound, iwyuProbe := .notFound,
    dirExists := fun _ => false, cppcheckResult := none,
    compileCommandsExists := false, cwd := .mk "." [] .nil, tidyResult := fun _ => none }

/-- Analyzer environment: all tools probed present, but
`compile_commands.json` is missing. -/
def missingDbEnv : AnalyzeEnv :=
  { cppcheckProbe := .ran 0, clangTidyProbe := .ran 0, iwyuProbe := .ran 0,
    dirExists := fun _ => false, cppcheckResult := some ⟨0, "", ""⟩,
    compileCommandsExists := false, cwd := .mk "." [] .nil, tidyResult := fun _ => none }

/-- Analyzer environment: all tools probed present and the
compiled-command database exists; every clang-tidy run reports a
warning. -/
def dbPresentEnv : AnalyzeEnv :=
  { cppcheckProbe := .ran 0, clangTidyProbe := .ran 0, iwyuProbe := .ran 0,
    dirExists := fun _ => false, cppcheckResult := some ⟨0, "", ""⟩,
    compileCommandsExists := true, cwd := oneFileTree,
    tidyResult := fun _ => some ⟨0, "warning: bad", ""⟩ }

/-! ### Helper lemmas -/

theorem lor_eq_zero_iff (a b : Nat) : a ||| b = 0 ↔ a = 0 ∧ b = 0 := by
  constructor
  · intro h
    have key : ∀ i, a.testBit i = false ∧ b.testBit i = false := by
      intro i
      have := congrArg (fun x => Nat.testBit x i) h
      simp only [Nat.testBit_or, Nat.zero_testBit] at this
      exact Bool.or_eq_false_iff.mp this
    constructor
    · exact Nat.eq_of_testBit_eq (fun i => by simp [(key i).1])
    · exact Nat.eq_of_testBit_eq (fun i => by simp [(key i).2])
  · rintro ⟨rfl, rfl⟩
    simp

mutual

/-- Every path produced by the walker has all its directory components
outside the exclusion list, a file name ending in one of the extensions,
and names a file present in the walked tree. -/
theorem walkTree_mem_inv (ex exts : List String) :
    ∀ t : FsTree, ∀ p ∈ walkTree ex exts t,
      (∀ d ∈ p.1, ¬ d ∈ ex) ∧ exts.any (fun e => strEndsWith p.2 e) = true ∧
        t.hasFile p.1 p.2 = true
  | .mk n fls sub => fun p hp => by
      simp only [walkTree] at hp
      rcases List.mem_append.mp hp with h | h
      · obtain ⟨f, hf, rfl⟩ := List.mem_map.mp h
        obtain ⟨hfls, hext⟩ := List.mem_filter.mp hf
        refine ⟨by simp, by simpa using hext, ?_⟩
        simp only [FsTree.hasFile]
        exact List.elem_eq_true_of_mem hfls
      · obtain ⟨hd, hext, d, ds, heq, hin⟩ := walkSubdirs_mem_inv ex exts sub p h
        refine ⟨hd, hext, ?_⟩
        rw [heq]
        simpa only [FsTree.hasFile] using hin

/-- Forest version of `walkTree_mem_inv`: additionally, every produced path
descends through some non-excluded subdirectory of the forest. -/
theorem walkSubdirs_mem_inv (ex exts : List String) :
    ∀ fo : FsForest, ∀ p ∈ walkSubdirs ex exts fo,
      (∀ d ∈ p.1, ¬ d ∈ ex) ∧ exts.any (fun e => strEndsWith p.2 e) = true ∧
        ∃ d ds, p.1 = d :: ds ∧ hasFileIn fo d ds p.2 = true
  | .nil => fun p hp => by simp [walkSubdirs] at hp
  | .cons t ts => fun p hp => by
      simp only [walkSubdirs] at hp
      rcases List.mem_append.mp hp with h | h
      · by_cases hex : t.dname ∈ ex
        · simp [hex] at h
        · rw [if_neg hex] at h
          obtain ⟨q, hq, rfl⟩ := List.mem_map.mp h
          obtain ⟨hd, hext, hfile⟩ := walkTree_mem_inv ex exts t q hq
          refine ⟨?_, hext, t.dname, q.1, rfl, ?_⟩
          · intro d hdm
            rcases List.mem_cons.mp hdm with rfl | hdm
            · exact hex
            · exact hd d hdm
          · simp [hasFileIn, hfile]
      · obtain ⟨hd, hext, d, ds, heq, hin⟩ := walkSubdirs_mem_inv ex exts ts p h
        exact ⟨hd, hext, d, ds, heq, by simp [hasFileIn, hin]⟩

end

/-! ### Claim theorems -/

/-- C6: for every directory tree given to the source file enumerator (both
`find_source_files` in `format.py` and the walk inside `run_clang_tidy` in
`analyze.py`), no returned path lies inside a directory whose name is in
the exclusion set `build`, `external`, `.git`, at any depth; exclusion is
by exact directory-name match (a directory named `build` at depth two is
pruned, while a directory named `buildings` — which the excluded name
merely prefixes — is descended into). -/
theorem enumerator_excludes_by_name_at_any_depth :
    (∀ t : FsTree, ∀ p ∈ find_source_files t, ∀ d ∈ p.1, ¬ d ∈ excludedDirNames) ∧
    (∀ t : FsTree, ∀ p ∈ tidySourceFiles t, ∀ d ∈ p.1, ¬ d ∈ excludedDirNames) ∧
    walkTree ["build"] [".cpp"] exactMatchTree = [(["buildings"], "y.cpp")] := by
  refine ⟨?_, ?_, by decide⟩
  · intro t p hp
    exact (walkTree_mem_inv excludedDirNames formatExtensions t p hp).1
  · intro t p hp
    exact (walkTree_mem_inv excludedDirNames tidyExtensions t p hp).1

/-- Witness for C6 at a concrete input: the path `sub/c.hpp` returned on
the scenario tree has no component in the exclusion set. -/
theorem enumerator_excludes_witness :
    (["sub"], "c.hpp") ∈ find_source_files scenarioTree ∧
      ∀ d ∈ ["sub"], ¬ d ∈ excludedDirNames :=
  ⟨by decide, enumerator_excludes_by_name_at_any_depth.1 scenarioTree (["sub"], "c.hpp")
    (by decide)⟩

/-- C7: every path returned by the walker has a file name ending in one of
the configured extensions and exists in the walked tree; on the scenario
tree (`a.cpp`, `build/b.cpp`, `sub/c.hpp`, `sub/d.txt`) with
`exclude_dirs = {build}` and extensions `{.cpp, .hpp}` the result is
exactly `{a.cpp, sub/c.hpp}`, with no duplicates. -/
theorem enumerator_extension_and_existence :
    (∀ ex exts : List String, ∀ t : FsTree, ∀ p ∈ walkTree ex exts t,
      exts.any (fun e => strEndsWith p.2 e) = true ∧ t.hasFile p.1 p.2 = true) ∧
    walkTree ["build"] [".cpp", ".hpp"] scenarioTree = [([], "a.cpp"), (["sub"], "c.hpp")] ∧
    (walkTree ["build"] [".cpp", ".hpp"] scenarioTree).Nodup := by
  refine ⟨?_, by decide, by decide⟩
  intro ex exts t p hp
  exact (walkTree_mem_inv ex exts t p hp).2

/-- Witness for C7 at a concrete input: `a.cpp` as returned on the
scenario tree matches an extension and exists in the tree. -/
theorem enumerator_extension_witness :
    ([], "a.cpp") ∈ walkTree ["build"] [".cpp", ".hpp"] scenarioTree ∧
      ([".cpp", ".hpp"].any (fun e => strEndsWith "a.cpp" e) = true ∧
        scenarioTree.hasFile [] "a.cpp" = true) :=
  ⟨by decide, enumerator_extension_and_existence.1 ["build"] [".cpp", ".hpp"] scenarioTree
    ([], "a.cpp") (by decide)⟩

/-- C9: when the version probe hits an OS lookup failure
(`FileNotFoundError`), both probes catch it and return `false` after
printing the tool's install hint; the probe functions are total on that
outcome (nothing propagates to the caller). -/
theorem probe_catches_lookup_failure :
    ∀ toolName installInstructions : String,
      check_tool ProbeOutcome.notFound toolName installInstructions =
        (false, ["✗ " ++ toolName ++ " not found", "  Install: " ++ installInstructions]) ∧
      check_clang_format ProbeOutcome.notFound = (false, clangFormatInstallLines) :=
  fun _ _ => ⟨rfl, rfl⟩

/-- A trace of invocations none of which is the in-place one leaves the
file contents untouched. -/
theorem runFmtCmds_of_no_mutate (fmt : (List String × String) → String → String) :
    ∀ (cmds : List FmtCmd) (fs : FileState),
      (∀ c ∈ cmds, c.mutates = false) → runFmtCmds fmt fs cmds = fs
  | [], _, _ => rfl
  | c :: cs, fs, h => by
      have hc := h c (List.mem_cons_self c cs)
      have happ : applyFmtCmd fmt fs c = fs := by
        cases c <;> simp [applyFmtCmd, FmtCmd.mutates] at hc ⊢
      simp only [runFmtCmds, happ]
      exact runFmtCmds_of_no_mutate fmt cs fs (fun x hx => h x (List.mem_cons_of_mem c hx))

/-- C8: a check-mode run of the formatter issues only non-mutating
clang-format invocations (the version probe and dry runs, never `-i`), so
the byte contents of every file are unchanged by the run. -/
theorem check_mode_preserves_files :
    ∀ (directory : FsTree) (env : FormatEnv)
      (fmt : (List String × String) → String → String) (fs : FileState),
      (∀ c ∈ (format_main true directory env).2.1, c.mutates = false) ∧
      runFmtCmds fmt fs (format_main true directory env).2.1 = fs := by
  intro directory env fmt fs
  have hall : ∀ c ∈ (format_main true directory env).2.1, c.mutates = false := by
    intro c hc
    simp only [format_main] at hc
    split at hc
    · simp only [List.mem_singleton] at hc
      subst hc
      rfl
    · split at hc
      · simp only [List.mem_singleton] at hc
        subst hc
        rfl
      · split at hc
        · split at hc <;>
          · simp only [List.mem_cons, List.mem_map] at hc
            rcases hc with rfl | ⟨q, _, rfl⟩ <;> rfl
        · next hfalse => exact absurd trivial hfalse
  exact ⟨hall, runFmtCmds_of_no_mutate fmt _ fs hall⟩

/-- Witness for C8 at a concrete input: a check-mode run over one file
leaves a concrete file-contents table unchanged, even though the ambient
formatted-contents function would alter it. -/
theorem check_mode_preserves_files_witness :
    runFmtCmds (fun _ s => s ++ "x") [(([], "a.cpp"), "int main()")]
      (format_main true oneFileTree allFormattedEnv).2.1 = [(([], "a.cpp"), "int main()")] :=
  (check_mode_preserves_files oneFileTree allFormattedEnv (fun _ s => s ++ "x")
    [(([], "a.cpp"), "int main()")]).2

/-- C1 counterexample: with clang-format available, an apply-mode run in
which the in-place invocation on the (unique) enumerated file fails still
exits with code 0 — the claim demands exit code 1 when not every
enumerated file was formatted without error. -/
theorem formatter_apply_error_exit_zero :
    (format_main false oneFileTree applyFailEnv).1 = 0 ∧
    ([], "a.cpp") ∈ find_source_files oneFileTree ∧
    format_file false (applyFailEnv.inplaceRc ([], "a.cpp")) = false := by
  decide

/-- C1 amended: the formatter exits 0 iff clang-format is available and,
in check mode, no enumerated file needs formatting; it exits 1 when
clang-format is unavailable or when check mode finds files needing
formatting; in apply mode it exits 0 whenever clang-format is available,
regardless of per-file errors.  The exit code is always 0 or 1, and a
check-mode run over (some) files that are all well-formatted reports
"All files are properly formatted!". -/
theorem formatter_exit_code_amended :
    ∀ (check : Bool) (directory : FsTree) (env : FormatEnv),
      ((format_main check directory env).1 = 0 ↔
        (check_clang_format env.clangFormatProbe).1 = true ∧
          (check = true → ∀ p ∈ find_source_files directory,
            format_file true (env.dryRc p) = false)) ∧
      ((check_clang_format env.clangFormatProbe).1 = false →
        (format_main check directory env).1 = 1) ∧
      ((format_main check directory env).1 = 0 ∨ (format_main check directory env).1 = 1) ∧
      (check = true → (check_clang_format env.clangFormatProbe).1 = true →
        (find_source_files directory).isEmpty = false →
        (∀ p ∈ find_source_files directory, format_file true (env.dryRc p) = false) →
        (format_main check directory env).1 = 0 ∧
          "All files are properly formatted!" ∈ (format_main check directory env).2.2) := by
  intro check directory env
  by_cases hav : (check_clang_format env.clangFormatProbe).1
  · by_cases hemp : (find_source_files directory).isEmpty
    · cases check <;> simp_all [format_main, List.isEmpty_iff]
    · cases check
      · simp_all [format_main, List.isEmpty_iff]
      · rcases hfil : (find_source_files directory).filter
            (fun p => format_file true (env.dryRc p)) with - | ⟨q, qs⟩
        · have hall : ∀ p ∈ find_source_files directory,
              format_file true (env.dryRc p) = false := by
            intro p hp
            have := List.filter_eq_nil_iff.mp hfil p hp
            simpa using this
          simp_all [format_main, List.isEmpty_iff]
        · have hq : q ∈ (find_source_files directory).filter
              (fun p => format_file true (env.dryRc p)) := by
            rw [hfil]
            exact List.mem_cons_self q qs
          obtain ⟨hqmem, hqt⟩ := List.mem_filter.mp hq
          have hone : (format_main true directory env).1 = 1 := by
            simp [format_main, hav, hemp, hfil, List.isEmpty_iff]
          have hnall : ¬ ∀ p ∈ find_source_files directory,
              format_file true (env.dryRc p) = false := by
            intro hco
            have hqf := hco q hqmem
            rw [hqt] at hqf
            exact absurd hqf (by simp)
          refine ⟨iff_of_false (by rw [hone]; omega) ?_, fun _ => hone, Or.inr hone,
            fun _ _ _ hall2 => absurd hall2 hnall⟩
          rintro ⟨-, hall2⟩
          exact hnall (hall2 rfl)
  · simp_all [format_main]

/-- Witness for C1 (amended) at a concrete input: check mode over a root
with one well-formatted file exits 0 and prints the all-formatted
report. -/
theorem formatter_exit_code_amended_witness :
    (format_main true oneFileTree allFormattedEnv).1 = 0 ∧
      "All files are properly formatted!" ∈ (format_main true oneFileTree allFormattedEnv).2.2 :=
  (formatter_exit_code_amended true oneFileTree allFormattedEnv).2.2.2 rfl (by decide)
    (by decide) (by decide)

/-- C2: the analyzer's exit code is the bitwise OR of the return codes of
the sub-tool runners that were executed, and it is 0 exactly when every
executed runner returned 0. -/
theorem analyzer_exit_is_or_of_runner_codes :
    ∀ (tool : ToolChoice) (buildDir : String) (env : AnalyzeEnv),
      (analyze_main tool buildDir env).1 =
        ((analyze_main tool buildDir env).2.1.map Prod.snd).foldl (fun a b => a ||| b) 0 ∧
      ((analyze_main tool buildDir env).1 = 0 ↔
        ∀ r ∈ (analyze_main tool buildDir env).2.1, r.2 = 0) := by
  intro tool buildDir env
  cases hc : selCppcheck tool && (check_tool env.cppcheckProbe "cppcheck" cppcheckHint).1 <;>
    cases ht : selClangTidy tool && (check_tool env.clangTidyProbe "clang-tidy" clangTidyHint).1 <;>
      cases hi : selIwyu tool <;>
        simp [analyze_main, hc, ht, hi, run_include_what_you_use, lor_eq_zero_iff]

/-- C3: when `compile_commands.json` is missing under the build dir, the
clang-tidy runner reports it and returns 1 without dispatching any
clang-tidy subprocess; in a full run the other selected, available tools
still execute, the combined exit code is the cppcheck code OR 1 (hence
non-zero), and the whole subprocess trace is exactly cppcheck's. -/
theorem clang_tidy_missing_db_isolated :
    ∀ (buildDir : String) (env : AnalyzeEnv),
      env.compileCommandsExists = false →
      (check_tool env.clangTidyProbe "clang-tidy" clangTidyHint).1 = true →
      (check_tool env.cppcheckProbe "cppcheck" cppcheckHint).1 = true →
      (run_clang_tidy buildDir env.compileCommandsExists env.cwd env.tidyResult).1 = 1 ∧
      (run_clang_tidy buildDir env.compileCommandsExists env.cwd env.tidyResult).2.1 = [] ∧
      (s!"ERROR: {buildDir}/compile_commands.json not found!") ∈
        (run_clang_tidy buildDir env.compileCommandsExists env.cwd env.tidyResult).2.2 ∧
      (analyze_main .all buildDir env).1 =
        (run_cppcheck env.dirExists env.cppcheckResult source_dirs).1 ||| 1 ∧
      (analyze_main .all buildDir env).1 ≠ 0 ∧
      ("cppcheck", (run_cppcheck env.dirExists env.cppcheckResult source_dirs).1) ∈
        (analyze_main .all buildDir env).2.1 ∧
      ("iwyu", 0) ∈ (analyze_main .all buildDir env).2.1 ∧
      (analyze_main .all buildDir env).2.2 =
        (run_cppcheck env.dirExists env.cppcheckResult source_dirs).2.1 := by
  intro buildDir env hdb htidy hcpp
  refine ⟨by simp [run_clang_tidy, hdb], by simp [run_clang_tidy, hdb],
    by simp [run_clang_tidy, hdb], ?_, ?_, ?_, ?_, ?_⟩ <;>
      simp [analyze_main, selCppcheck, selClangTidy, selIwyu, hcpp, htidy, hdb,
        run_clang_tidy, run_include_what_you_use, lor_eq_zero_iff]

/-- Witness for C3 at a concrete input: all probes succeed, the database
is missing, and the analyzer exit code is non-zero while cppcheck and the
iwyu step still ran. -/
theorem clang_tidy_missing_db_witness :
    (run_clang_tidy "out" missingDbEnv.compileCommandsExists missingDbEnv.cwd
        missingDbEnv.tidyResult).1 = 1 ∧
    (analyze_main .all "out" missingDbEnv).1 ≠ 0 ∧
    ("iwyu", 0) ∈ (analyze_main .all "out" missingDbEnv).2.1 :=
  ⟨(clang_tidy_missing_db_isolated "out" missingDbEnv rfl (by decide) (by decide)).1,
   (clang_tidy_missing_db_isolated "out" missingDbEnv rfl (by decide) (by decide)).2.2.2.2.1,
   (clang_tidy_missing_db_isolated "out" missingDbEnv rfl (by decide) (by decide)).2.2.2.2.2.2.1⟩

/-- C4 counterexample: with `--tool iwyu` and the iwyu probe reporting the
executable absent, the iwyu runner is still entered (it appears in the
executed-runner list), so the availability probe does not gate every
selected tool as the claim states. -/
theorem iwyu_runs_despite_absent_probe :
    (check_tool probeAbsentEnv.iwyuProbe "include-what-you-use" iwyuHint).1 = false ∧
    ("iwyu", 0) ∈ (analyze_main .iwyu "build" probeAbsentEnv).2.1 := by
  decide

/-- C4 amended: the availability probe gates execution for cppcheck and
clang-tidy (a probe-absent tool's runner is never entered), but the iwyu
step runs whenever selected, regardless of its probe result — though it
dispatches no subprocess of its own. -/
theorem probe_gates_cppcheck_and_tidy_not_iwyu :
    ∀ (tool : ToolChoice) (buildDir : String) (env : AnalyzeEnv),
      ((check_tool env.cppcheckProbe "cppcheck" cppcheckHint).1 = false →
        ∀ rc, ¬ ("cppcheck", rc) ∈ (analyze_main tool buildDir env).2.1) ∧
      ((check_tool env.clangTidyProbe "clang-tidy" clangTidyHint).1 = false →
        ∀ rc, ¬ ("clang-tidy", rc) ∈ (analyze_main tool buildDir env).2.1) ∧
      (selIwyu tool = true → ("iwyu", 0) ∈ (analyze_main tool buildDir env).2.1) ∧
      run_include_what_you_use.2.1 = [] := by
  intro tool buildDir env
  refine ⟨fun hp rc hmem => ?_, fun hp rc hmem => ?_, fun hsel => ?_, rfl⟩
  · cases ht : selClangTidy tool && (check_tool env.clangTidyProbe "clang-tidy" clangTidyHint).1 <;>
      cases hi : selIwyu tool <;>
        simp_all [analyze_main, hp, run_include_what_you_use]
  · cases hc : selCppcheck tool && (check_tool env.cppcheckProbe "cppcheck" cppcheckHint).1 <;>
      cases hi : selIwyu tool <;>
        simp_all [analyze_main, hp, run_include_what_you_use]
  · simp [analyze_main, hsel, run_include_what_you_use]

/-- Witness for C4 (amended) at a concrete input: with every probe
failing, cppcheck is never entered while the iwyu step still runs. -/
theorem probe_gates_witness :
    (¬ ("cppcheck", 0) ∈ (analyze_main .all "build" probeAbsentEnv).2.1) ∧
    ("iwyu", 0) ∈ (analyze_main .all "build" probeAbsentEnv).2.1 :=
  ⟨(probe_gates_cppcheck_and_tidy_not_iwyu .all "build" probeAbsentEnv).1 (by decide) 0,
   (probe_gates_cppcheck_and_tidy_not_iwyu .all "build" probeAbsentEnv).2.2.1 (by decide)⟩

/-- C5 counterexample: with all three fixed source directories existing,
the orchestrator dispatches a single cppcheck subprocess, not one per
existing directory as the claim states (3 existing directories, 1
invocation). -/
theorem cppcheck_not_per_directory :
    (source_dirs.filter (fun _ => true)).length = 3 ∧
    (run_cppcheck (fun _ => true) (some ⟨0, "", ""⟩) source_dirs).2.1.length = 1 := by
  decide

/-- C5 amended: the cppcheck orchestrator makes exactly one subprocess
invocation, whose argument vector appends exactly the existing source
directories (in order) to the fixed flag list; nonexistent directories are
skipped silently (the console output does not depend on which directories
exist), and the tool's diagnostic text is passed through verbatim. -/
theorem cppcheck_single_invocation :
    ∀ (dirExists : String → Bool) (result : Option SubprocessResult)
      (sourceDirs : List String),
      (run_cppcheck dirExists result sourceDirs).2.1 =
        [AnaCmd.invoke (cppcheckBaseCmd ++ sourceDirs.filter dirExists)] ∧
      (∀ dirExists2 : String → Bool,
        (run_cppcheck dirExists result sourceDirs).2.2 =
          (run_cppcheck dirExists2 result sourceDirs).2.2) ∧
      (∀ r, result = some r → r.stdout ≠ "" →
        r.stdout ∈ (run_cppcheck dirExists result sourceDirs).2.2) := by
  intro dirExists result sourceDirs
  refine ⟨?_, ?_, ?_⟩
  · cases result <;> rfl
  · intro d2
    cases result <;> rfl
  · rintro r rfl hne
    simp [run_cppcheck, hne]

/-- Witness for C5 (amended) at a concrete input: a run with no existing
directory still dispatches exactly one invocation, carrying no directory
arguments; its non-empty stdout is relayed. -/
theorem cppcheck_single_invocation_witness :
    (run_cppcheck (fun _ => false) (some ⟨1, "diag", ""⟩) source_dirs).2.1 =
      [AnaCmd.invoke (cppcheckBaseCmd ++ source_dirs.filter (fun _ => false))] ∧
    "diag" ∈ (run_cppcheck (fun _ => false) (some ⟨1, "diag", ""⟩) source_dirs).2.2 :=
  ⟨(cppcheck_single_invocation (fun _ => false) (some ⟨1, "diag", ""⟩) source_dirs).1,
   (cppcheck_single_invocation (fun _ => false) (some ⟨1, "diag", ""⟩) source_dirs).2.2
     ⟨1, "diag", ""⟩ rfl (by decide)⟩

/-- C10: whenever the compiled-command database exists, the clang-tidy
runner returns 0 — whatever the per-file clang-tidy outcomes are, and also
when no source files are found — and consequently the analyzer's combined
exit code does not depend on the clang-tidy outcomes at all. -/
theorem tidy_returns_zero_when_db_exists :
    ∀ (buildDir : String) (cwd : FsTree)
      (tidyResult : List String × String → Option SubprocessResult),
      (run_clang_tidy buildDir true cwd tidyResult).1 = 0 ∧
      ∀ (tool : ToolChoice) (env : AnalyzeEnv)
        (tr2 : List String × String → Option SubprocessResult),
        env.compileCommandsExists = true →
        (analyze_main tool buildDir env).1 =
          (analyze_main tool buildDir { env with tidyResult := tr2 }).1 := by
  intro buildDir cwd tidyResult
  have hzero : ∀ (cw : FsTree) (tr : List String × String → Option SubprocessResult),
      (run_clang_tidy buildDir true cw tr).1 = 0 := by
    intro cw tr
    simp only [run_clang_tidy]
    norm_num
    split <;> rfl
  refine ⟨hzero cwd tidyResult, ?_⟩
  intro tool env tr2 hdb
  cases hc : selCppcheck tool && (check_tool env.cppcheckProbe "cppcheck" cppcheckHint).1 <;>
    cases ht : selClangTidy tool && (check_tool env.clangTidyProbe "clang-tidy" clangTidyHint).1 <;>
      cases hi : selIwyu tool <;>
        simp [analyze_main, hc, ht, hi, hdb, hzero]

/-- Witness for C10 at a concrete input: with the database present and
every clang-tidy run warning, the runner still returns 0 and the combined
exit code is unchanged if clang-tidy outcomes are replaced wholesale. -/
theorem tidy_returns_zero_witness :
    (run_clang_tidy "build" true oneFileTree (fun _ => some ⟨0, "warning: bad", ""⟩)).1 = 0 ∧
    (analyze_main .all "build" dbPresentEnv).1 =
      (analyze_main .all "build" { dbPresentEnv with tidyResult := fun _ => none }).1 :=
  ⟨(tidy_returns_zero_when_db_exists "build" oneFileTree
      (fun _ => some ⟨0, "warning: bad", ""⟩)).1,
   (tidy_returns_zero_when_db_exists "build" oneFileTree
      (fun _ => some ⟨0, "warning: bad", ""⟩)).2 .all dbPresentEnv (fun _ => none) rfl⟩

end Silica
